import Mathlib

/-!
Shallow embedding of `strawberry-django-auth` (files under `src/`):
`src/gqlauth/jwt/types_.py`, `src/gqlauth/migrations/0002_alter_userstatus_options.py`
and `src/docs/pre_build.py`.

Modelling conventions:
* `datetime` values are ticks (microseconds) since the epoch, as `Nat`.
* Host-framework calls (django `authenticate`, the injected
  `JWT_PAYLOAD_HANDLER` / `JWT_DECODE_HANDLER`, the ORM user lookup and
  `RefreshToken.from_user`) are oracle parameters: the library code under
  `src/` only dispatches on their outcomes.
* Python exceptions that the `src/` code raises or catches are values of
  `PyExc`; an uncaught exception propagates as `Except.error`.
* Database row writes performed during an operation are recorded as an
  explicit list of `DbWrite` events returned next to the result.
-/

namespace Gqlauth

/-- `datetime` modelled as ticks (microseconds) since the epoch. -/
abbrev Datetime := Nat

/-- Modelled from the spec: the fixed enumeration of error messages
(`gqlauth.core.constants.Messages`, not under `src/`): "errors are a fixed
enumeration of messages (invalid credentials, not verified, expired token,
unauthenticated)". -/
inductive GqlError
  | INVALID_CREDENTIALS
  | NOT_VERIFIED
  | EXPIRED_TOKEN
  | UNAUTHENTICATED
  deriving DecidableEq, Repr

/-- Python exceptions that appear in `src/gqlauth/jwt/types_.py`:
`TokenExpired` (gqlauth), `PermissionDenied` (django),
`USER_MODEL.DoesNotExist` (ORM lookup miss) and the `TypeError` a
`None < datetime` comparison would raise. -/
inductive PyExc
  | tokenExpired
  | permissionDenied
  | doesNotExist
  | typeError
  deriving DecidableEq, Repr

/-- The settings read from `settings.GQL_AUTH` by `types_.py`.
`JWT_TIME_GRANULARITY` models the precision of `JWT_TIME_FORMAT`: formatting
a datetime keeps only `ticks / granularity` (the library default format
`%Y-%m-%dT%H:%M:%S` has second precision, granularity `1000000`). -/
structure AppSettings where
  JWT_EXPIRATION_DELTA : Nat
  ALLOW_LOGIN_NOT_VERIFIED : Bool
  JWT_LONG_RUNNING_REFRESH_TOKEN : Bool
  JWT_TIME_GRANULARITY : Nat
  deriving DecidableEq, Repr

/-- `user.status` fields used by `authenticate` (the `UserStatus` model rows
are host-ORM owned; only these two flags are read). -/
structure UserStatus where
  verified : Bool
  archived : Bool
  deriving DecidableEq, Repr

/-- A host-ORM user: its primary key, the `USERNAME_FIELD` value and its
`status` row. -/
structure User where
  pk : Nat
  username : String
  status : UserStatus
  deriving DecidableEq, Repr

/-- Modelled from the spec: `UserStatus.unarchive` (in `gqlauth.models`, not
under `src/`), called by `ObtainJSONWebTokenType.authenticate` with the
source comment "un-archive on login": it clears `status.archived`. -/
def UserStatus.unarchive (u : User) : User :=
  { u with status := { u.status with archived := false } }

/-- A database row write performed by library code during an operation. -/
inductive DbWrite
  | unarchive (pk : Nat)
  | createRefreshToken (pk : Nat)
  deriving DecidableEq, Repr

/-- `strftime` under `JWT_TIME_FORMAT`: the formatted string determines (and
is modelled by) the number of whole format units, `ticks / granularity`. -/
def strftime (g : Nat) (d : Datetime) : Nat := d / g

/-- `strptime` under `JWT_TIME_FORMAT`: parsing the formatted string yields
the datetime at whole-unit precision. -/
def strptime (g : Nat) (s : Nat) : Datetime := s * g

/-- A Python runtime value stored in a payload dict entry: an int (the pk
field), a formatted datetime string, a datetime, or `None`. -/
inductive PyVal
  | int (n : Nat)
  | str (s : Nat)
  | dt (d : Datetime)
  | vnone
  deriving DecidableEq, Repr

/-- `TokenPayloadType` (`types_.py` lines 62-86): the `@inject_fields`
decorator injects the `JWT_PAYLOAD_PK` field (modelled as `pk`); `origIat`
and `exp` are the declared dataclass fields, `exp` defaulting to `None`. -/
structure TokenPayloadType where
  pk : Nat
  origIat : Datetime
  exp : Option Datetime := none
  deriving DecidableEq, Repr

/-- `TokenPayloadType.__post_init__`: `if not self.exp: self.exp =
self.origIat + app_settings.JWT_EXPIRATION_DELTA`. `None` is the only falsy
value an `Optional[datetime]` field can hold (datetimes are always truthy). -/
def TokenPayloadType.post_init (st : AppSettings) (p : TokenPayloadType) :
    TokenPayloadType :=
  match p.exp with
  | none => { p with exp := some (p.origIat + st.JWT_EXPIRATION_DELTA) }
  | some _ => p

/-- The dict produced by `dataclasses.asdict` / consumed by `from_dict`,
with one entry per dataclass field. -/
structure PayloadDict where
  pk : PyVal
  origIat : PyVal
  exp : PyVal
  deriving DecidableEq, Repr

/-- `TokenPayloadType.as_dict`: `dataclasses.asdict(self)`, then every
datetime-valued entry is replaced by its `strftime(JWT_TIME_FORMAT)` string;
the pk entry is not a datetime and `None` is not a datetime, so both pass
through unchanged. -/
def TokenPayloadType.as_dict (g : Nat) (p : TokenPayloadType) : PayloadDict :=
  { pk := .int p.pk
    origIat := .str (strftime g p.origIat)
    exp := match p.exp with
      | some e => .str (strftime g e)
      | none => .vnone }

/-- The mutation loop of `TokenPayloadType.from_dict`: for each dataclass
field whose declared type is `datetime` (`origIat` and `exp`, not the pk
field), a string entry is replaced in place by `strptime(value,
JWT_TIME_FORMAT)`; other entries are untouched. -/
def PayloadDict.parseDatetimes (g : Nat) (data : PayloadDict) : PayloadDict :=
  { pk := data.pk
    origIat := match data.origIat with
      | .str s => .dt (strptime g s)
      | v => v
    exp := match data.exp with
      | .str s => .dt (strptime g s)
      | v => v }

/-- The final `cls(**data)` of `from_dict`: constructing the dataclass (which
runs `__post_init__`). Yields `none` when an entry does not have the runtime
type the dataclass fields expect (Python would produce an ill-typed object
that fails downstream). -/
def PayloadDict.construct (st : AppSettings) (data : PayloadDict) :
    Option TokenPayloadType :=
  match data.pk, data.origIat, data.exp with
  | .int pk, .dt o, .dt e => some (TokenPayloadType.post_init st ⟨pk, o, some e⟩)
  | .int pk, .dt o, .vnone => some (TokenPayloadType.post_init st ⟨pk, o, none⟩)
  | _, _, _ => none

/-- `TokenPayloadType.from_dict` (`types_.py` lines 80-86): mutates `data`
in place (the first component is the dict after the call) and returns
`cls(**data)`. -/
def TokenPayloadType.from_dict (st : AppSettings) (g : Nat)
    (data : PayloadDict) : PayloadDict × Option TokenPayloadType :=
  let mutated := data.parseDatetimes g
  (mutated, mutated.construct st)

/-- A payload truncated to the precision of `JWT_TIME_FORMAT`: every datetime
field is rounded down to a whole format unit. -/
def TokenPayloadType.truncToFormat (g : Nat) (p : TokenPayloadType) :
    TokenPayloadType :=
  { pk := p.pk
    origIat := p.origIat / g * g
    exp := p.exp.map (fun e => e / g * g) }

/-- `TokenType` (`types_.py` lines 94-121): the payload together with its
encoded form. -/
structure TokenType where
  payload : TokenPayloadType
  token : String
  deriving DecidableEq, Repr

/-- `TokenType.is_expired`: `self.payload.exp < datetime.utcnow()`. When
`exp` is `None` the Python comparison raises `TypeError`. -/
def TokenType.is_expired (now : Datetime) (t : TokenType) : Except PyExc Bool :=
  match t.payload.exp with
  | some e => .ok (decide (e < now))
  | none => .error .typeError

/-- `TokenType.from_user`: delegates to the injected `JWT_PAYLOAD_HANDLER`
(oracle parameter `payloadHandler`). -/
def TokenType.from_user (payloadHandler : User → Except PyExc TokenType)
    (user : User) : Except PyExc TokenType :=
  payloadHandler user

/-- `TokenType.from_token` (`types_.py` lines 105-113): decode with the
injected `JWT_DECODE_HANDLER` (oracle parameter `decode`), then raise
`TokenExpired` when the decoded token is expired, else return it. -/
def TokenType.from_token (decode : String → TokenType) (now : Datetime)
    (token : String) : Except PyExc TokenType :=
  let token_type := decode token
  match token_type.is_expired now with
  | .ok true => .error .tokenExpired
  | .ok false => .ok token_type
  | .error e => .error e

/-- `TokenType.get_user_instance` (`types_.py` lines 115-121):
`USER_MODEL.objects.get(**{pk_name: payload pk})` — the ORM lookup is the
oracle `lookup`; a miss raises `DoesNotExist`. -/
def TokenType.get_user_instance (lookup : Nat → Option User) (t : TokenType) :
    Except PyExc User :=
  match lookup t.payload.pk with
  | some u => .ok u
  | none => .error .doesNotExist

/-- `RefreshTokenType` (`types_.py` lines 36-49): fields of the host-ORM
`RefreshToken` row exposed over GraphQL (the expiry methods delegate to the
host model and are not needed here). -/
structure RefreshTokenType where
  token : String
  created : Datetime
  revoked : Option Datetime
  deriving DecidableEq, Repr

/-- `ObtainJSONWebTokenInput` (`types_.py` lines 124-130): the injected
`LOGIN_FIELDS` provide the `USERNAME_FIELD` entry (modelled as `username`);
`identifier`/`userEntry` exist only when `LOGIN_REQUIRE_CAPTCHA` is on. -/
structure ObtainJSONWebTokenInput where
  username : String
  password : String
  identifier : Option String := none
  userEntry : Option String := none
  deriving DecidableEq, Repr

/-- The keyword arguments `authenticate` builds for the django
`authenticate()` call: exactly `{USERNAME_FIELD: getattr(input_,
USERNAME_FIELD), "password": input_.password}`. -/
structure AuthArgs where
  username : String
  password : String
  deriving DecidableEq, Repr

/-- Outcome of the host `django.contrib.auth.authenticate(request, **args)`
call: a user, `None`, or a raised `PermissionDenied` from a backend. -/
inductive AuthBackendResult
  | accepted (u : User)
  | noUser
  | permissionDenied
  deriving DecidableEq, Repr

/-- `ObtainJSONWebTokenType` (`types_.py` lines 139-145); the
`refresh_token` field exists only under `JWT_LONG_RUNNING_REFRESH_TOKEN`
and is `none` otherwise. -/
structure ObtainJSONWebTokenType where
  success : Bool
  user : Option User := none
  token : Option TokenType := none
  refresh_token : Option RefreshTokenType := none
  errors : Option GqlError := none
  deriving DecidableEq, Repr

/-- Modelled from the spec: `RefreshToken.from_user` (in `gqlauth.models`,
not under `src/`) — "Refresh token … randomly generated token that is
attached to a FK user": it creates and saves a fresh refresh-token row for
the user. The row content is the oracle `refreshFor`; the save is recorded
as a `createRefreshToken` write. -/
def RefreshToken.from_user (refreshFor : User → RefreshTokenType)
    (user : User) : RefreshTokenType × List DbWrite :=
  (refreshFor user, [DbWrite.createRefreshToken user.pk])

/-- `ObtainJSONWebTokenType.from_user` (`types_.py` lines 147-156): build
the success result with a token from `TokenType.from_user`, then attach a
new refresh token when `JWT_LONG_RUNNING_REFRESH_TOKEN` is on. An exception
raised by the payload handler propagates. -/
def ObtainJSONWebTokenType.from_user (st : AppSettings)
    (payloadHandler : User → Except PyExc TokenType)
    (refreshFor : User → RefreshTokenType) (user : User) :
    Except PyExc (ObtainJSONWebTokenType × List DbWrite) :=
  match TokenType.from_user payloadHandler user with
  | .error e => .error e
  | .ok tok =>
    if st.JWT_LONG_RUNNING_REFRESH_TOKEN then
      .ok ({ success := true, user := some user, token := some tok,
             refresh_token := some (RefreshToken.from_user refreshFor user).1 },
           (RefreshToken.from_user refreshFor user).2)
    else
      .ok ({ success := true, user := some user, token := some tok }, [])

/-- `ObtainJSONWebTokenType.authenticate` (`types_.py` lines 158-191):
build `args` from the input, call the django backends (oracle `backend`);
`None` gives `INVALID_CREDENTIALS`; otherwise un-archive an archived user,
then dispatch on `user.status.verified or ALLOW_LOGIN_NOT_VERIFIED`; a
`PermissionDenied` raised in the `try` block gives `UNAUTHENTICATED` and a
`TokenExpired` gives `EXPIRED_TOKEN`; any other exception propagates. The
second component records the row writes performed before returning. -/
def ObtainJSONWebTokenType.authenticate (st : AppSettings)
    (backend : AuthArgs → AuthBackendResult)
    (payloadHandler : User → Except PyExc TokenType)
    (refreshFor : User → RefreshTokenType)
    (input_ : ObtainJSONWebTokenInput) :
    Except PyExc (ObtainJSONWebTokenType × List DbWrite) :=
  let args : AuthArgs := { username := input_.username, password := input_.password }
  match backend args with
  | .noUser =>
      .ok ({ success := false, errors := some .INVALID_CREDENTIALS }, [])
  | .permissionDenied =>
      .ok ({ success := false, errors := some .UNAUTHENTICATED }, [])
  | .accepted user0 =>
      let user := if user0.status.archived = true then UserStatus.unarchive user0 else user0
      let w1 : List DbWrite :=
        if user0.status.archived = true then [DbWrite.unarchive user0.pk] else []
      if user.status.verified || st.ALLOW_LOGIN_NOT_VERIFIED then
        match ObtainJSONWebTokenType.from_user st payloadHandler refreshFor user with
        | .ok (ret, w2) => .ok (ret, w1 ++ w2)
        | .error .permissionDenied =>
            .ok ({ success := false, errors := some .UNAUTHENTICATED }, w1)
        | .error .tokenExpired =>
            .ok ({ success := false, errors := some .EXPIRED_TOKEN }, w1)
        | .error e => .error e
      else
        .ok ({ success := false, errors := some .NOT_VERIFIED }, w1)

/-- `VerifyTokenInput` (`types_.py` lines 194-196). -/
structure VerifyTokenInput where
  token : String
  deriving DecidableEq, Repr

/-- `VerifyTokenType` (`types_.py` lines 199-204). -/
structure VerifyTokenType where
  success : Bool
  token : Option TokenType := none
  user : Option User := none
  errors : Option GqlError := none
  deriving DecidableEq, Repr

/-- The `try` body of `VerifyTokenType.from_token` (`types_.py` lines
208-210): decode and expiry-check the token, then look up its user; an
exception from either step escapes to the `except` clauses. -/
def VerifyTokenType.tryBody (decode : String → TokenType)
    (lookup : Nat → Option User) (now : Datetime)
    (token_input : VerifyTokenInput) : Except PyExc VerifyTokenType :=
  match TokenType.from_token decode now token_input.token with
  | .error e => .error e
  | .ok token_type =>
    match token_type.get_user_instance lookup with
    | .error e => .error e
    | .ok user => .ok { success := true, token := some token_type, user := some user }

/-- `VerifyTokenType.from_token` (`types_.py` lines 206-217): the `try`
body (`tryBody` above), with `DoesNotExist` translated to
`INVALID_CREDENTIALS` and `TokenExpired` to `EXPIRED_TOKEN`; any other
exception propagates. -/
def VerifyTokenType.from_token (decode : String → TokenType)
    (lookup : Nat → Option User) (now : Datetime)
    (token_input : VerifyTokenInput) : Except PyExc VerifyTokenType :=
  match VerifyTokenType.tryBody decode lookup now token_input with
  | .error .doesNotExist =>
      .ok { success := false, errors := some .INVALID_CREDENTIALS }
  | .error .tokenExpired =>
      .ok { success := false, errors := some .EXPIRED_TOKEN }
  | other => other

/-- A row created by the `0002_alter_userstatus_options` data migration. -/
structure UserStatusRow where
  id : Nat
  verified : Bool
  archived : Bool
  user_id : Nat
  deriving DecidableEq, Repr

/-- `set_userstatus` (`0002_alter_userstatus_options.py` lines 7-12): for
every existing user, create a `userstatus` row with `verified=True`,
`archived=False` and both ids equal to the user's id. -/
def set_userstatus (userIds : List Nat) : List UserStatusRow :=
  userIds.map (fun uid => { id := uid, verified := true, archived := false, user_id := uid })

/-- One step performed by the docs pre-build script (`docs/pre_build.py`):
a plain file copy, the Mixin-docstring regex extraction written as YAML, or
a pydoc-markdown render of a python module into a markdown file. -/
inductive DocsAction
  | copyFile (src dst : String)
  | regexExtractMixins (src dst : String)
  | renderModuleDocs (modName dst : String)
  deriving DecidableEq, Repr

/-- Whether a docs action is a file copy or the regex extraction (the only
two behaviours the spec ascribes to the script). -/
def DocsAction.isCopyOrExtract : DocsAction → Bool
  | .copyFile _ _ => true
  | .regexExtractMixins _ _ => true
  | .renderModuleDocs _ _ => false

/-- The actions of `docs/pre_build.py`'s `__main__` block, in program order:
copy `resolvers.py` to `docs/data/api.yml`, overwrite it with the regex
extraction of the `*Mixin` classes, copy the three project files into the
docs dir, and render the `decorators` module with pydoc-markdown into
`docs/decorators.md`. -/
def preBuildActions : List DocsAction :=
  [ .copyFile "src/gqlauth/user/resolvers.py" "docs/data/api.yml"
  , .regexExtractMixins "docs/data/api.yml" "docs/data/api.yml"
  , .copyFile "CONTRIBUTORS.md" "docs/contributors.md"
  , .copyFile "CHANGES.md" "docs/changelog.md"
  , .copyFile "CONTRIBUTING.md" "docs/contributing.md"
  , .renderModuleDocs "decorators" "docs/decorators.md" ]

/-- The YAML lines built by the extraction loop of `pre_build.py` (lines
34-38) from the regex matches `(class_name, docstring)`: the generated-file
header, a blank line, then one `name: |docstring` line per match. -/
def buildYamlStrings (ms : List (String × String)) : List String :=
  ["# this file is auto generated by the pre_docs_script.py", ""] ++
    ms.map (fun m => m.1 ++ ": |" ++ m.2)

/-! Concrete sample values used by witnesses and counterexamples. -/

/-- Sample settings: one-hour expiry delta, verification required, refresh
tokens on, second-precision time format. -/
def wSettings : AppSettings :=
  { JWT_EXPIRATION_DELTA := 3600000000
    ALLOW_LOGIN_NOT_VERIFIED := false
    JWT_LONG_RUNNING_REFRESH_TOKEN := true
    JWT_TIME_GRANULARITY := 1000000 }

/-- Sample archived, unverified user. -/
def wArchivedUser : User :=
  { pk := 1, username := "alice", status := { verified := false, archived := true } }

/-- Sample verified, unarchived user. -/
def wVerifiedUser : User :=
  { pk := 2, username := "bob", status := { verified := true, archived := false } }

/-- Sample unverified, unarchived user. -/
def wUnverifiedUser : User :=
  { pk := 3, username := "carol", status := { verified := false, archived := false } }

/-- Sample login input. -/
def wInput : ObtainJSONWebTokenInput := { username := "alice", password := "pw" }

/-- Sample token whose payload expires at tick 5. -/
def wToken : TokenType := { payload := { pk := 1, origIat := 0, exp := some 5 }, token := "tok" }

/-- Sample payload handler returning `wToken` for every user. -/
def wHandler : User → Except PyExc TokenType := fun _ => .ok wToken

/-- Sample refresh-token factory. -/
def wRefreshFor : User → RefreshTokenType := fun _ => { token := "r", created := 0, revoked := none }

/-- Sample decode handler: every string decodes to a token with pk 7
expiring at tick 5. -/
def wDecode : String → TokenType := fun s => { payload := { pk := 7, origIat := 0, exp := some 5 }, token := s }

/-- Sample empty user table. -/
def wNoLookup : Nat → Option User := fun _ => none

/-- Sample backend rejecting every credential pair (django `authenticate`
returns `None`). -/
def wNoUserBackend : AuthArgs → AuthBackendResult := fun _ => .noUser

/-- The result record of a failed login with invalid credentials. -/
def wRunIC : ObtainJSONWebTokenType :=
  { success := false, errors := some .INVALID_CREDENTIALS }

/-- The result record of a failed verification with invalid credentials. -/
def wVerifyIC : VerifyTokenType :=
  { success := false, errors := some .INVALID_CREDENTIALS }

end Gqlauth

namespace Gqlauth

/-! Theorems. -/

/-- Helper: un-archiving preserves the `verified` flag and the pk. -/
theorem unarchive_preserves (u : User) :
    (UserStatus.unarchive u).status.verified = u.status.verified ∧
    (UserStatus.unarchive u).status.archived = false ∧
    (UserStatus.unarchive u).pk = u.pk :=
  ⟨rfl, rfl, rfl⟩

/-- C10: every payload that went through `__post_init__` has a non-`None`
`exp`; when `exp` was not supplied it equals
`origIat + JWT_EXPIRATION_DELTA`, and `TokenType.is_expired` is well
defined (returns a Bool rather than raising `TypeError`) on any token whose
payload went through `__post_init__`. -/
theorem post_init_exp_always_set (st : AppSettings) (p : TokenPayloadType) :
    (p.post_init st).exp.isSome = true ∧
    (p.exp = none →
      (p.post_init st).exp = some (p.origIat + st.JWT_EXPIRATION_DELTA)) ∧
    (∀ (now : Datetime) (t : TokenType), t.payload = p.post_init st →
      ∃ b : Bool, t.is_expired now = .ok b) := by
  refine ⟨?_, ?_, ?_⟩
  · cases hexp : p.exp <;> simp [TokenPayloadType.post_init, hexp]
  · intro hexp
    simp [TokenPayloadType.post_init, hexp]
  · intro now t ht
    cases hexp : p.exp <;>
      simp [TokenType.is_expired, ht, TokenPayloadType.post_init, hexp]

/-- Witness for C10 at a concrete payload with no supplied `exp`. -/
theorem post_init_exp_always_set_witness :
    (TokenPayloadType.post_init wSettings ⟨1, 5, none⟩).exp = some (5 + wSettings.JWT_EXPIRATION_DELTA) ∧
    ∃ b : Bool,
      TokenType.is_expired 7 ⟨TokenPayloadType.post_init wSettings ⟨1, 5, none⟩, "t"⟩ = .ok b :=
  ⟨(post_init_exp_always_set wSettings ⟨1, 5, none⟩).2.1 rfl,
   (post_init_exp_always_set wSettings ⟨1, 5, none⟩).2.2 7 _ rfl⟩

/-- C9: `from_dict ∘ as_dict` is the identity up to the precision of
`JWT_TIME_FORMAT` (each datetime rounded down to a whole format unit), and
`from_dict` mutates the dict in place, its string datetime entries replaced
by the parsed (`strptime`) datetime values. -/
theorem payload_dict_round_trip (st : AppSettings) (g : Nat)
    (p : TokenPayloadType) (e : Datetime) (hexp : p.exp = some e) :
    TokenPayloadType.from_dict st g (p.as_dict g) =
      ({ pk := .int p.pk
         origIat := .dt (strptime g (strftime g p.origIat))
         exp := .dt (strptime g (strftime g e)) },
       some (p.truncToFormat g)) := by
  simp [TokenPayloadType.from_dict, TokenPayloadType.as_dict,
    PayloadDict.parseDatetimes, PayloadDict.construct,
    TokenPayloadType.post_init, TokenPayloadType.truncToFormat,
    strftime, strptime, hexp]

/-- Witness for C9 at a concrete payload, granularity `10^6` (second
precision): both datetimes are rounded down to whole seconds and the
mutated dict holds parsed datetimes. -/
theorem payload_dict_round_trip_witness :
    TokenPayloadType.from_dict wSettings 1000000 (TokenPayloadType.as_dict 1000000 ⟨1, 2500000, some 3999999⟩) =
      ({ pk := .int 1, origIat := .dt 2000000, exp := .dt 3000000 },
       some ⟨1, 2000000, some 3000000⟩) :=
  payload_dict_round_trip wSettings 1000000 ⟨1, 2500000, some 3999999⟩ 3999999 rfl

/-- C4: `TokenType.from_token` returns exactly the decode handler's token,
except that it raises `TokenExpired` if and only if the decoded payload's
`exp` is strictly earlier than the current time. -/
theorem from_token_wraps_decode (decode : String → TokenType)
    (now : Datetime) (token : String) (e : Datetime)
    (hexp : (decode token).payload.exp = some e) :
    (TokenType.from_token decode now token = .ok (decode token) ↔ ¬ e < now) ∧
    (TokenType.from_token decode now token = .error .tokenExpired ↔ e < now) := by
  by_cases hlt : e < now <;>
    simp [TokenType.from_token, TokenType.is_expired, hexp, hlt]

/-- Witness for C4 at the sample decode handler (exp tick 5): at time 4 the
token is returned unchanged, at time 9 `TokenExpired` is raised. -/
theorem from_token_wraps_decode_witness :
    TokenType.from_token wDecode 4 "tok" = .ok (wDecode "tok") ∧
    TokenType.from_token wDecode 9 "tok" = .error .tokenExpired :=
  ⟨((from_token_wraps_decode wDecode 4 "tok" 5 rfl).1).2 (by decide),
   ((from_token_wraps_decode wDecode 9 "tok" 5 rfl).2).2 (by decide)⟩

/-- C5 counterexample: an expired token whose user does not exist. The
expiry check runs before the user lookup, so the result is `EXPIRED_TOKEN`
even though no user with the payload's pk exists — refuting
"`INVALID_CREDENTIALS` exactly when no user with that primary key exists". -/
theorem verify_token_counterexample :
    VerifyTokenType.from_token wDecode wNoLookup 10 ⟨"tok"⟩ =
      .ok { success := false, errors := some .EXPIRED_TOKEN } ∧
    wNoLookup (wDecode "tok").payload.pk = none ∧
    some GqlError.EXPIRED_TOKEN ≠ some GqlError.INVALID_CREDENTIALS :=
  ⟨rfl, rfl, by decide⟩

/-- C5 amended: `VerifyTokenType.from_token` has three outcomes, tried in
order: `EXPIRED_TOKEN` exactly when the token is expired; otherwise
`INVALID_CREDENTIALS` exactly when no user with the payload's
`JWT_PAYLOAD_PK` exists; otherwise success with the decoded token and the
looked-up user. -/
theorem verify_token_case_analysis (decode : String → TokenType)
    (lookup : Nat → Option User) (now : Datetime) (ti : VerifyTokenInput)
    (e : Datetime) (hexp : (decode ti.token).payload.exp = some e) :
    (e < now →
      VerifyTokenType.from_token decode lookup now ti =
        .ok { success := false, errors := some .EXPIRED_TOKEN }) ∧
    (¬ e < now → lookup (decode ti.token).payload.pk = none →
      VerifyTokenType.from_token decode lookup now ti =
        .ok { success := false, errors := some .INVALID_CREDENTIALS }) ∧
    (¬ e < now → ∀ u, lookup (decode ti.token).payload.pk = some u →
      VerifyTokenType.from_token decode lookup now ti =
        .ok { success := true, token := some (decode ti.token), user := some u }) := by
  refine ⟨?_, ?_, ?_⟩
  · intro hlt
    simp [VerifyTokenType.from_token, VerifyTokenType.tryBody,
      TokenType.from_token, TokenType.is_expired, hexp, hlt]
  · intro hlt hmiss
    simp [VerifyTokenType.from_token, VerifyTokenType.tryBody,
      TokenType.from_token, TokenType.is_expired, TokenType.get_user_instance,
      hexp, hlt, hmiss]
  · intro hlt u hu
    simp [VerifyTokenType.from_token, VerifyTokenType.tryBody,
      TokenType.from_token, TokenType.is_expired, TokenType.get_user_instance,
      hexp, hlt, hu]

/-- Witness for the amended C5 at concrete inputs: the expired case at time
10, the missing-user case at time 4, and the success case at time 4 with a
one-user table. -/
theorem verify_token_case_analysis_witness :
    VerifyTokenType.from_token wDecode wNoLookup 10 ⟨"tok"⟩ =
      .ok { success := false, errors := some .EXPIRED_TOKEN } ∧
    VerifyTokenType.from_token wDecode wNoLookup 4 ⟨"tok"⟩ =
      .ok { success := false, errors := some .INVALID_CREDENTIALS } ∧
    VerifyTokenType.from_token wDecode (fun _ => some wVerifiedUser) 4 ⟨"tok"⟩ =
      .ok { success := true, token := some (wDecode "tok"), user := some wVerifiedUser } :=
  ⟨(verify_token_case_analysis wDecode wNoLookup 10 ⟨"tok"⟩ 5 rfl).1 (by decide),
   (verify_token_case_analysis wDecode wNoLookup 4 ⟨"tok"⟩ 5 rfl).2.1 (by decide) rfl,
   (verify_token_case_analysis wDecode (fun _ => some wVerifiedUser) 4 ⟨"tok"⟩ 5 rfl).2.2
     (by decide) wVerifiedUser rfl⟩

/-- C6 counterexample: the pre-build script's action list contains a step
that is neither a file copy nor the regex extraction — the pydoc-markdown
render of the `decorators` module into `docs/decorators.md` — refuting "it
performs no other document generation". -/
theorem pre_build_counterexample :
    preBuildActions.all DocsAction.isCopyOrExtract = false ∧
    preBuildActions.filter (fun a => ! a.isCopyOrExtract) =
      [DocsAction.renderModuleDocs "decorators" "docs/decorators.md"] :=
  ⟨rfl, rfl⟩

/-- C6 amended: the pre-build script consists of the file copies and the
Mixin regex extraction, plus exactly one further document-generation step:
the pydoc-markdown render of the `decorators` module into
`docs/decorators.md`. The extraction emits one `name: |docstring` YAML line
per regex match after the two header lines. -/
theorem pre_build_actions_characterization :
    (∀ a ∈ preBuildActions, a.isCopyOrExtract = true ∨
       a = DocsAction.renderModuleDocs "decorators" "docs/decorators.md") ∧
    (preBuildActions.filter (fun a => ! a.isCopyOrExtract) =
       [DocsAction.renderModuleDocs "decorators" "docs/decorators.md"]) ∧
    (∀ ms : List (String × String), ∀ m ∈ ms,
       (m.1 ++ ": |" ++ m.2) ∈ buildYamlStrings ms) ∧
    (∀ ms : List (String × String), (buildYamlStrings ms).length = ms.length + 2) := by
  refine ⟨?_, rfl, ?_, ?_⟩
  · intro a ha
    simp only [preBuildActions, List.mem_cons, List.not_mem_nil, or_false] at ha
    rcases ha with rfl | rfl | rfl | rfl | rfl | rfl
    · exact Or.inl rfl
    · exact Or.inl rfl
    · exact Or.inl rfl
    · exact Or.inl rfl
    · exact Or.inl rfl
    · exact Or.inr rfl
  · intro ms m hm
    simp only [buildYamlStrings, List.mem_append, List.mem_map]
    exact Or.inr ⟨m, hm, rfl⟩
  · intro ms
    simp only [buildYamlStrings, List.length_append, List.length_map,
      List.length_cons, List.length_nil]
    omega

/-- Helper: the accepted-user branch of `authenticate`, selected when the
django backends return a user. -/
theorem authenticate_accepted_eq (st : AppSettings)
    (backend : AuthArgs → AuthBackendResult)
    (ph : User → Except PyExc TokenType) (rf : User → RefreshTokenType)
    (inp : ObtainJSONWebTokenInput) (u : User)
    (hb : backend ⟨inp.username, inp.password⟩ = .accepted u) :
    ObtainJSONWebTokenType.authenticate st backend ph rf inp =
      (if (if u.status.archived = true then UserStatus.unarchive u else u).status.verified
          || st.ALLOW_LOGIN_NOT_VERIFIED then
        match ObtainJSONWebTokenType.from_user st ph rf
            (if u.status.archived = true then UserStatus.unarchive u else u) with
        | .ok (ret, w2) =>
            .ok (ret, (if u.status.archived = true then [DbWrite.unarchive u.pk] else []) ++ w2)
        | .error .permissionDenied =>
            .ok ({ success := false, errors := some .UNAUTHENTICATED },
                 if u.status.archived = true then [DbWrite.unarchive u.pk] else [])
        | .error .tokenExpired =>
            .ok ({ success := false, errors := some .EXPIRED_TOKEN },
                 if u.status.archived = true then [DbWrite.unarchive u.pk] else [])
        | .error e => .error e
      else
        .ok ({ success := false, errors := some .NOT_VERIFIED },
             if u.status.archived = true then [DbWrite.unarchive u.pk] else [])) := by
  simp only [ObtainJSONWebTokenType.authenticate, hb]

/-- Helper: inversion of a successful `from_user`: the payload handler
produced a token, the result is the success record, and the writes are the
refresh-token creation exactly when the flag is on. -/
theorem from_user_ok_inv (st : AppSettings)
    (ph : User → Except PyExc TokenType) (rf : User → RefreshTokenType)
    (user : User) (ret : ObtainJSONWebTokenType) (w : List DbWrite)
    (h : ObtainJSONWebTokenType.from_user st ph rf user = .ok (ret, w)) :
    ∃ tok, ph user = .ok tok ∧
      ret = { success := true, user := some user, token := some tok,
              refresh_token :=
                if st.JWT_LONG_RUNNING_REFRESH_TOKEN then some (rf user) else none,
              errors := none } ∧
      w = if st.JWT_LONG_RUNNING_REFRESH_TOKEN
          then [DbWrite.createRefreshToken user.pk] else [] := by
  unfold ObtainJSONWebTokenType.from_user TokenType.from_user RefreshToken.from_user at h
  cases hp : ph user <;> rw [hp] at h
  case error e => exact absurd h (by simp)
  case ok tok =>
    refine ⟨tok, rfl, ?_⟩
    by_cases hflag : st.JWT_LONG_RUNNING_REFRESH_TOKEN = true <;>
      simp only [hflag, Bool.false_eq_true, if_true, if_false, Except.ok.injEq,
        Prod.mk.injEq, Bool.not_eq_true] at h ⊢ <;>
      exact ⟨h.1.symm, h.2.symm⟩

/-- Helper: inversion of a non-raising `authenticate` run: it is the
invalid-credentials case, the permission-denied case, or one of the four
accepted-user outcomes. -/
theorem authenticate_ok_inv (st : AppSettings)
    (backend : AuthArgs → AuthBackendResult)
    (ph : User → Except PyExc TokenType) (rf : User → RefreshTokenType)
    (inp : ObtainJSONWebTokenInput) (ret : ObtainJSONWebTokenType)
    (w : List DbWrite)
    (h : ObtainJSONWebTokenType.authenticate st backend ph rf inp = .ok (ret, w)) :
    (backend ⟨inp.username, inp.password⟩ = .noUser ∧
       ret = { success := false, errors := some .INVALID_CREDENTIALS } ∧ w = []) ∨
    (backend ⟨inp.username, inp.password⟩ = .permissionDenied ∧
       ret = { success := false, errors := some .UNAUTHENTICATED } ∧ w = []) ∨
    (∃ u, backend ⟨inp.username, inp.password⟩ = .accepted u ∧
       (ret = { success := false, errors := some .NOT_VERIFIED } ∨
        ret = { success := false, errors := some .UNAUTHENTICATED } ∨
        ret = { success := false, errors := some .EXPIRED_TOKEN } ∨
        ∃ u' tok, ret = { success := true
                          user := some u'
                          token := some tok
                          refresh_token :=
                            if st.JWT_LONG_RUNNING_REFRESH_TOKEN then some (rf u') else none
                          errors := none })) := by
  cases hb : backend ⟨inp.username, inp.password⟩
  case noUser =>
    simp only [ObtainJSONWebTokenType.authenticate, hb, Except.ok.injEq, Prod.mk.injEq] at h
    exact Or.inl ⟨rfl, h.1.symm, h.2.symm⟩
  case permissionDenied =>
    simp only [ObtainJSONWebTokenType.authenticate, hb, Except.ok.injEq, Prod.mk.injEq] at h
    exact Or.inr (Or.inl ⟨rfl, h.1.symm, h.2.symm⟩)
  case accepted u =>
    refine Or.inr (Or.inr ⟨u, rfl, ?_⟩)
    rw [authenticate_accepted_eq st backend ph rf inp u hb] at h
    by_cases hv : ((if u.status.archived = true then UserStatus.unarchive u else u).status.verified
        || st.ALLOW_LOGIN_NOT_VERIFIED) = true
    · rw [if_pos hv] at h
      cases hf : ObtainJSONWebTokenType.from_user st ph rf
          (if u.status.archived = true then UserStatus.unarchive u else u) <;>
        rw [hf] at h
      · rename_i e
        cases e
        · simp only [Except.ok.injEq, Prod.mk.injEq] at h
          exact Or.inr (Or.inr (Or.inl h.1.symm))
        · simp only [Except.ok.injEq, Prod.mk.injEq] at h
          exact Or.inr (Or.inl h.1.symm)
        · simp at h
        · simp at h
      · rename_i pair
        obtain ⟨ret', w2⟩ := pair
        obtain ⟨tok, -, hret, -⟩ := from_user_ok_inv st ph rf _ ret' w2 hf
        simp only [Except.ok.injEq, Prod.mk.injEq] at h
        exact Or.inr (Or.inr (Or.inr ⟨_, tok, h.1.symm.trans hret⟩))
    · rw [if_neg hv] at h
      simp only [Except.ok.injEq, Prod.mk.injEq] at h
      exact Or.inl h.1.symm

/-- Helper: inversion of the `try` body of `VerifyTokenType.from_token`:
a non-raising body run is the success record. -/
theorem tryBody_ok_inv (decode : String → TokenType) (lookup : Nat → Option User)
    (now : Datetime) (ti : VerifyTokenInput) (v : VerifyTokenType)
    (h : VerifyTokenType.tryBody decode lookup now ti = .ok v) :
    ∃ t u, v = { success := true, token := some t, user := some u } := by
  unfold VerifyTokenType.tryBody at h
  split at h
  · exact absurd h (by simp)
  · split at h
    · exact absurd h (by simp)
    · simp only [Except.ok.injEq] at h
      exact ⟨_, _, h.symm⟩

/-- Helper: inversion of a non-raising `VerifyTokenType.from_token` run:
success, invalid credentials, or expired token. -/
theorem verify_ok_inv (decode : String → TokenType) (lookup : Nat → Option User)
    (now : Datetime) (ti : VerifyTokenInput) (ret : VerifyTokenType)
    (h : VerifyTokenType.from_token decode lookup now ti = .ok ret) :
    (∃ t u, ret = { success := true, token := some t, user := some u }) ∨
    ret = { success := false, errors := some .INVALID_CREDENTIALS } ∨
    ret = { success := false, errors := some .EXPIRED_TOKEN } := by
  cases hbody : VerifyTokenType.tryBody decode lookup now ti
  case error e =>
    unfold VerifyTokenType.from_token at h
    rw [hbody] at h
    cases e
    · simp only [Except.ok.injEq] at h
      exact Or.inr (Or.inr h.symm)
    · simp at h
    · simp only [Except.ok.injEq] at h
      exact Or.inr (Or.inl h.symm)
    · simp at h
  case ok v =>
    unfold VerifyTokenType.from_token at h
    rw [hbody] at h
    simp only [Except.ok.injEq] at h
    obtain ⟨t, u, hv⟩ := tryBody_ok_inv decode lookup now ti v hbody
    exact Or.inl ⟨t, u, h.symm.trans hv⟩

/-- C1: every non-raising `authenticate` result with `success=False` carries
one of the four enumerated errors and every `from_token` failure carries
`INVALID_CREDENTIALS` or `EXPIRED_TOKEN`; `success=True` results carry
`errors=None`; and all four errors are reachable from `authenticate`. -/
theorem error_field_enumeration :
    (∀ (st : AppSettings) (backend : AuthArgs → AuthBackendResult)
       (ph : User → Except PyExc TokenType) (rf : User → RefreshTokenType)
       (inp : ObtainJSONWebTokenInput) (ret : ObtainJSONWebTokenType) (w : List DbWrite),
       ObtainJSONWebTokenType.authenticate st backend ph rf inp = .ok (ret, w) →
         (ret.success = true → ret.errors = none) ∧
         (ret.success = false →
           ret.errors = some .INVALID_CREDENTIALS ∨ ret.errors = some .NOT_VERIFIED ∨
           ret.errors = some .EXPIRED_TOKEN ∨ ret.errors = some .UNAUTHENTICATED)) ∧
    (∀ (decode : String → TokenType) (lookup : Nat → Option User) (now : Datetime)
       (ti : VerifyTokenInput) (ret : VerifyTokenType),
       VerifyTokenType.from_token decode lookup now ti = .ok ret →
         (ret.success = true → ret.errors = none) ∧
         (ret.success = false →
           ret.errors = some .INVALID_CREDENTIALS ∨ ret.errors = some .EXPIRED_TOKEN)) ∧
    (∀ e : GqlError, ∃ (st : AppSettings) (backend : AuthArgs → AuthBackendResult)
       (ph : User → Except PyExc TokenType) (rf : User → RefreshTokenType)
       (inp : ObtainJSONWebTokenInput) (w : List DbWrite),
       ObtainJSONWebTokenType.authenticate st backend ph rf inp =
         .ok ({ success := false, errors := some e }, w)) := by
  refine ⟨?_, ?_, ?_⟩
  · intro st backend ph rf inp ret w h
    rcases authenticate_ok_inv st backend ph rf inp ret w h with
      ⟨-, rfl, -⟩ | ⟨-, rfl, -⟩ | ⟨u, -, rfl | rfl | rfl | ⟨u', tok, rfl⟩⟩ <;> simp
  · intro decode lookup now ti ret h
    rcases verify_ok_inv decode lookup now ti ret h with ⟨t, u, rfl⟩ | rfl | rfl <;> simp
  · intro e
    cases e
    · exact ⟨wSettings, wNoUserBackend, wHandler, wRefreshFor, wInput, [], rfl⟩
    · exact ⟨wSettings, fun _ => .accepted wUnverifiedUser,
        wHandler, wRefreshFor, wInput, [], rfl⟩
    · exact ⟨wSettings, fun _ => .accepted wVerifiedUser,
        fun _ => .error .tokenExpired, wRefreshFor, wInput, [], rfl⟩
    · exact ⟨wSettings, fun _ => .permissionDenied, wHandler, wRefreshFor, wInput, [], rfl⟩

/-- Witness for C1 at concrete runs: a rejected login and a
missing-user verification both land in the enumeration. -/
theorem error_field_enumeration_witness :
    (wRunIC.errors = some .INVALID_CREDENTIALS ∨ wRunIC.errors = some .NOT_VERIFIED ∨
     wRunIC.errors = some .EXPIRED_TOKEN ∨ wRunIC.errors = some .UNAUTHENTICATED) ∧
    (wVerifyIC.errors = some .INVALID_CREDENTIALS ∨ wVerifyIC.errors = some .EXPIRED_TOKEN) :=
  ⟨(error_field_enumeration.1 wSettings wNoUserBackend wHandler wRefreshFor
      wInput wRunIC [] rfl).2 rfl,
   (error_field_enumeration.2.1 wDecode wNoLookup 4 ⟨"tok"⟩ wVerifyIC rfl).2 rfl⟩

/-- C2: `authenticate` consults the credentials only through the host
`authenticate()` call on exactly the input's `USERNAME_FIELD` value and
password (two backends agreeing there give identical results), and a
non-raising run fails with `INVALID_CREDENTIALS` if and only if that call
returned no user. -/
theorem authenticate_delegates_password_check (st : AppSettings)
    (backend backend2 : AuthArgs → AuthBackendResult)
    (ph : User → Except PyExc TokenType) (rf : User → RefreshTokenType)
    (inp : ObtainJSONWebTokenInput) :
    (backend ⟨inp.username, inp.password⟩ = backend2 ⟨inp.username, inp.password⟩ →
      ObtainJSONWebTokenType.authenticate st backend ph rf inp =
        ObtainJSONWebTokenType.authenticate st backend2 ph rf inp) ∧
    (∀ (ret : ObtainJSONWebTokenType) (w : List DbWrite),
      ObtainJSONWebTokenType.authenticate st backend ph rf inp = .ok (ret, w) →
      ((ret.success = false ∧ ret.errors = some .INVALID_CREDENTIALS) ↔
        backend ⟨inp.username, inp.password⟩ = .noUser)) := by
  constructor
  · intro hagree
    simp only [ObtainJSONWebTokenType.authenticate, hagree]
  · intro ret w h
    constructor
    · intro ⟨hs, he⟩
      rcases authenticate_ok_inv st backend ph rf inp ret w h with
        ⟨hb, rfl, -⟩ | ⟨hb, rfl, -⟩ | ⟨u, hb, rfl | rfl | rfl | ⟨u', tok, rfl⟩⟩ <;>
        first
        | exact hb
        | simp at he
    · intro hb
      simp only [ObtainJSONWebTokenType.authenticate, hb, Except.ok.injEq,
        Prod.mk.injEq] at h
      rw [h.1.symm]
      exact ⟨rfl, rfl⟩

/-- Witness for C2 at a concrete run: the rejecting backend's run fails
with `INVALID_CREDENTIALS` iff the backend returned no user. -/
theorem authenticate_delegates_password_check_witness :
    (wRunIC.success = false ∧ wRunIC.errors = some .INVALID_CREDENTIALS) ↔
      wNoUserBackend ⟨wInput.username, wInput.password⟩ = .noUser :=
  (authenticate_delegates_password_check wSettings wNoUserBackend wNoUserBackend
    wHandler wRefreshFor wInput).2 wRunIC [] rfl

/-- C3: for a backend-accepted user, `authenticate` fails with
`NOT_VERIFIED` exactly when the user is unverified and
`ALLOW_LOGIN_NOT_VERIFIED` is off; otherwise it succeeds with the freshly
issued token, and with a newly created refresh token exactly when
`JWT_LONG_RUNNING_REFRESH_TOKEN` is on. -/
theorem authenticate_verified_gate (st : AppSettings)
    (backend : AuthArgs → AuthBackendResult)
    (ph : User → Except PyExc TokenType) (rf : User → RefreshTokenType)
    (inp : ObtainJSONWebTokenInput) (u : User) (tok : TokenType)
    (hb : backend ⟨inp.username, inp.password⟩ = .accepted u)
    (hph : ph (if u.status.archived = true then UserStatus.unarchive u else u) = .ok tok) :
    (u.status.verified = false ∧ st.ALLOW_LOGIN_NOT_VERIFIED = false →
      ∃ w, ObtainJSONWebTokenType.authenticate st backend ph rf inp =
        .ok ({ success := false, errors := some .NOT_VERIFIED }, w)) ∧
    (u.status.verified = true ∨ st.ALLOW_LOGIN_NOT_VERIFIED = true →
      ∃ u' w, ObtainJSONWebTokenType.authenticate st backend ph rf inp =
        .ok ({ success := true
               user := some u'
               token := some tok
               refresh_token :=
                 if st.JWT_LONG_RUNNING_REFRESH_TOKEN then some (rf u') else none
               errors := none }, w) ∧
        (st.JWT_LONG_RUNNING_REFRESH_TOKEN = true →
          DbWrite.createRefreshToken u'.pk ∈ w)) := by
  have hveq : (if u.status.archived = true then UserStatus.unarchive u else u).status.verified
      = u.status.verified := by
    by_cases ha : u.status.archived = true <;> simp [ha, UserStatus.unarchive]
  rw [authenticate_accepted_eq st backend ph rf inp u hb]
  constructor
  · intro ⟨hv, hallow⟩
    rw [if_neg (by simp [hveq, hv, hallow])]
    exact ⟨_, rfl⟩
  · intro hor
    have hcond : ((if u.status.archived = true then UserStatus.unarchive u else u).status.verified
        || st.ALLOW_LOGIN_NOT_VERIFIED) = true := by
      rcases hor with hv | hallow
      · simp [hveq, hv]
      · simp [hallow]
    rw [if_pos hcond]
    unfold ObtainJSONWebTokenType.from_user TokenType.from_user RefreshToken.from_user
    rw [hph]
    by_cases hflag : st.JWT_LONG_RUNNING_REFRESH_TOKEN = true
    · refine ⟨if u.status.archived = true then UserStatus.unarchive u else u,
        (if u.status.archived = true then [DbWrite.unarchive u.pk] else []) ++
          [DbWrite.createRefreshToken
            (if u.status.archived = true then UserStatus.unarchive u else u).pk],
        ?_, ?_⟩
      · simp [hflag]
      · intro _
        simp
    · refine ⟨if u.status.archived = true then UserStatus.unarchive u else u,
        if u.status.archived = true then [DbWrite.unarchive u.pk] else [],
        ?_, ?_⟩
      · simp [hflag]
      · intro hflag2
        exact absurd hflag2 hflag

/-- Witness for C3: a verified user's login succeeds with the handler's
token and a refresh token, and an unverified user's login fails with
`NOT_VERIFIED`. -/
theorem authenticate_verified_gate_witness :
    (∃ w, ObtainJSONWebTokenType.authenticate wSettings
        (fun _ => .accepted wArchivedUser) wHandler wRefreshFor wInput =
      .ok ({ success := false, errors := some .NOT_VERIFIED }, w)) ∧
    (∃ u' w, ObtainJSONWebTokenType.authenticate wSettings
        (fun _ => .accepted wVerifiedUser) wHandler wRefreshFor wInput =
      .ok ({ success := true
             user := some u'
             token := some wToken
             refresh_token :=
               if wSettings.JWT_LONG_RUNNING_REFRESH_TOKEN then some (wRefreshFor u') else none
             errors := none }, w) ∧
      (wSettings.JWT_LONG_RUNNING_REFRESH_TOKEN = true →
        DbWrite.createRefreshToken u'.pk ∈ w)) :=
  ⟨(authenticate_verified_gate wSettings (fun _ => .accepted wArchivedUser)
      wHandler wRefreshFor wInput wArchivedUser wToken rfl rfl).1 ⟨rfl, rfl⟩,
   (authenticate_verified_gate wSettings (fun _ => .accepted wVerifiedUser)
      wHandler wRefreshFor wInput wVerifiedUser wToken rfl rfl).2 (Or.inl rfl)⟩

/-- Helper: membership in the conditional un-archive write list. -/
theorem mem_unarchive_writes (u : User) (ev : DbWrite)
    (h : ev ∈ (if u.status.archived = true then [DbWrite.unarchive u.pk] else [])) :
    ev = DbWrite.unarchive u.pk := by
  by_cases ha : u.status.archived = true
  · rw [if_pos ha] at h
    simpa using h
  · rw [if_neg ha] at h
    simp at h

/-- C8: when the backends accept an archived, unverified user (with
`ALLOW_LOGIN_NOT_VERIFIED` off), `authenticate` fails with `NOT_VERIFIED`
but still performs the un-archive first: `status.archived` is cleared and
the write list of the failed call is non-empty. -/
theorem unarchive_even_on_failed_login (st : AppSettings)
    (backend : AuthArgs → AuthBackendResult)
    (ph : User → Except PyExc TokenType) (rf : User → RefreshTokenType)
    (inp : ObtainJSONWebTokenInput) (u : User)
    (hb : backend ⟨inp.username, inp.password⟩ = .accepted u)
    (ha : u.status.archived = true) (hv : u.status.verified = false)
    (hallow : st.ALLOW_LOGIN_NOT_VERIFIED = false) :
    ObtainJSONWebTokenType.authenticate st backend ph rf inp =
      .ok ({ success := false, errors := some .NOT_VERIFIED }, [DbWrite.unarchive u.pk]) ∧
    (UserStatus.unarchive u).status.archived = false ∧
    ([DbWrite.unarchive u.pk] : List DbWrite) ≠ [] := by
  refine ⟨?_, rfl, by simp⟩
  have hcond : ¬ (((if u.status.archived = true then UserStatus.unarchive u else u).status.verified
      || st.ALLOW_LOGIN_NOT_VERIFIED) = true) := by
    simp [ha, UserStatus.unarchive, hv, hallow]
  rw [authenticate_accepted_eq st backend ph rf inp u hb, if_neg hcond, if_pos ha]

/-- Witness for C8 at the sample archived unverified user. -/
theorem unarchive_even_on_failed_login_witness :
    ObtainJSONWebTokenType.authenticate wSettings (fun _ => .accepted wArchivedUser)
        wHandler wRefreshFor wInput =
      .ok ({ success := false, errors := some .NOT_VERIFIED },
           [DbWrite.unarchive wArchivedUser.pk]) ∧
    (UserStatus.unarchive wArchivedUser).status.archived = false ∧
    ([DbWrite.unarchive wArchivedUser.pk] : List DbWrite) ≠ [] :=
  unarchive_even_on_failed_login wSettings (fun _ => .accepted wArchivedUser)
    wHandler wRefreshFor wInput wArchivedUser rfl rfl rfl rfl

/-- C7 counterexample: library code does write entity rows — the 0002 data
migration creates a user-status row per existing user, and a login by an
archived unverified user performs an un-archive write even though the call
fails. -/
theorem library_writes_counterexample :
    set_userstatus [1, 2] =
      [{ id := 1, verified := true, archived := false, user_id := 1 },
       { id := 2, verified := true, archived := false, user_id := 2 }] ∧
    set_userstatus [1, 2] ≠ [] ∧
    ObtainJSONWebTokenType.authenticate wSettings (fun _ => .accepted wArchivedUser)
        wHandler wRefreshFor wInput =
      .ok ({ success := false, errors := some .NOT_VERIFIED }, [DbWrite.unarchive 1]) ∧
    ([DbWrite.unarchive 1] : List DbWrite) ≠ [] := by
  refine ⟨rfl, by simp [set_userstatus], rfl, by simp⟩

/-- C7 amended: the library does write entity rows, in exactly these
places: every write of a non-raising `authenticate` run is an un-archive or
(only under `JWT_LONG_RUNNING_REFRESH_TOKEN`) a refresh-token creation, and
the 0002 migration creates one user-status row per existing user, verified
and unarchived, keyed by the user's id. -/
theorem library_write_characterization :
    (∀ (st : AppSettings) (backend : AuthArgs → AuthBackendResult)
       (ph : User → Except PyExc TokenType) (rf : User → RefreshTokenType)
       (inp : ObtainJSONWebTokenInput) (ret : ObtainJSONWebTokenType) (w : List DbWrite),
       ObtainJSONWebTokenType.authenticate st backend ph rf inp = .ok (ret, w) →
       ∀ ev ∈ w, (∃ pk, ev = DbWrite.unarchive pk) ∨
         (st.JWT_LONG_RUNNING_REFRESH_TOKEN = true ∧
          ∃ pk, ev = DbWrite.createRefreshToken pk)) ∧
    (∀ ids : List Nat, (set_userstatus ids).length = ids.length ∧
       ∀ r ∈ set_userstatus ids, r.verified = true ∧ r.archived = false ∧
         r.id = r.user_id ∧ r.id ∈ ids) := by
  constructor
  · intro st backend ph rf inp ret w h ev hev
    cases hb : backend ⟨inp.username, inp.password⟩
    case noUser =>
      simp only [ObtainJSONWebTokenType.authenticate, hb, Except.ok.injEq,
        Prod.mk.injEq] at h
      rw [← h.2] at hev
      simp at hev
    case permissionDenied =>
      simp only [ObtainJSONWebTokenType.authenticate, hb, Except.ok.injEq,
        Prod.mk.injEq] at h
      rw [← h.2] at hev
      simp at hev
    case accepted u =>
      rw [authenticate_accepted_eq st backend ph rf inp u hb] at h
      by_cases hvc : (((if u.status.archived = true then UserStatus.unarchive u else u).status.verified
          || st.ALLOW_LOGIN_NOT_VERIFIED) = true)
      · rw [if_pos hvc] at h
        cases hf : ObtainJSONWebTokenType.from_user st ph rf
            (if u.status.archived = true then UserStatus.unarchive u else u) <;>
          rw [hf] at h
        · rename_i e
          cases e
          · simp only [Except.ok.injEq, Prod.mk.injEq] at h
            rw [← h.2] at hev
            exact Or.inl ⟨u.pk, mem_unarchive_writes u ev hev⟩
          · simp only [Except.ok.injEq, Prod.mk.injEq] at h
            rw [← h.2] at hev
            exact Or.inl ⟨u.pk, mem_unarchive_writes u ev hev⟩
          · simp at h
          · simp at h
        · rename_i pair
          obtain ⟨ret', w2⟩ := pair
          obtain ⟨tok, -, -, hw2⟩ := from_user_ok_inv st ph rf _ ret' w2 hf
          simp only [Except.ok.injEq, Prod.mk.injEq] at h
          rw [← h.2] at hev
          rcases List.mem_append.mp hev with h1 | h2
          · exact Or.inl ⟨u.pk, mem_unarchive_writes u ev h1⟩
          · rw [hw2] at h2
            by_cases hflag : st.JWT_LONG_RUNNING_REFRESH_TOKEN = true
            · rw [if_pos hflag] at h2
              simp only [List.mem_singleton] at h2
              exact Or.inr ⟨hflag, _, h2⟩
            · rw [if_neg hflag] at h2
              simp at h2
      · rw [if_neg hvc] at h
        simp only [Except.ok.injEq, Prod.mk.injEq] at h
        rw [← h.2] at hev
        exact Or.inl ⟨u.pk, mem_unarchive_writes u ev hev⟩
  · intro ids
    constructor
    · simp [set_userstatus]
    · intro r hr
      simp only [set_userstatus, List.mem_map] at hr
      obtain ⟨uid, huid, rfl⟩ := hr
      exact ⟨rfl, rfl, rfl, huid⟩

/-- Witness for the amended C7: the un-archive write of the sample failed
login is in the characterized shape, and the one-user migration creates
one row. -/
theorem library_write_characterization_witness :
    ((∃ pk, DbWrite.unarchive 1 = DbWrite.unarchive pk) ∨
      (wSettings.JWT_LONG_RUNNING_REFRESH_TOKEN = true ∧
       ∃ pk, DbWrite.unarchive 1 = DbWrite.createRefreshToken pk)) ∧
    (set_userstatus [5]).length = [5].length :=
  ⟨library_write_characterization.1 wSettings (fun _ => .accepted wArchivedUser)
      wHandler wRefreshFor wInput { success := false, errors := some .NOT_VERIFIED }
      [DbWrite.unarchive 1] rfl (DbWrite.unarchive 1) (by simp),
   (library_write_characterization.2 [5]).1⟩

/-- Witness for the amended C6: the changelog copy is a copy step, and the
sample match list gives its YAML line in a four-line file. -/
theorem pre_build_actions_characterization_witness :
    (DocsAction.isCopyOrExtract (DocsAction.copyFile "CHANGES.md" "docs/changelog.md") = true ∨
       DocsAction.copyFile "CHANGES.md" "docs/changelog.md" =
         DocsAction.renderModuleDocs "decorators" "docs/decorators.md") ∧
    ("ObtainJSONWebToken" ++ ": |" ++ "doc") ∈
      buildYamlStrings [("ObtainJSONWebToken", "doc"), ("VerifyToken", "d2")] ∧
    (buildYamlStrings [("ObtainJSONWebToken", "doc"), ("VerifyToken", "d2")]).length = 4 :=
  ⟨pre_build_actions_characterization.1 (DocsAction.copyFile "CHANGES.md" "docs/changelog.md")
     (by simp [preBuildActions]),
   pre_build_actions_characterization.2.2.1 [("ObtainJSONWebToken", "doc"), ("VerifyToken", "d2")]
     ("ObtainJSONWebToken", "doc") (by simp),
   pre_build_actions_characterization.2.2.2 [("ObtainJSONWebToken", "doc"), ("VerifyToken", "d2")]⟩

end Gqlauth
